import Mathlib

/-!
Verification development for the `bevy_doryen` bridge crate.

This file shallowly embeds the bridge between the Bevy ECS framework and the
Doryen roguelike library (`src/lib.rs`, `src/render_system.rs`) and proves the
spec's testable properties about it.

Modelling conventions:
* Rust `panic!`/`unwrap` failures are modelled by `Option`: a function returns
  `none` exactly when the Rust code would abort.
* Machine integers (`u32`) are modelled as `Nat`; the only arithmetic the code
  performs is division, which cannot overflow.
* Bevy resources live in a `World` record; a resource that may be absent from
  the world is an `Option` field (`get_resource_mut::<T>()` returning `None`
  corresponds to the field being `none`).
* Bevy `Events<T>` with a `ManualEventReader` is modelled as the full list of
  events ever sent together with a cursor counting how many the reader has
  consumed; `reader.iter(&events).last()` reads the pending suffix and moves
  the cursor to the end, which is its behaviour inside one retention window.
* The Doryen `DoryenApi` handle is a record; `set_font_path` calls are logged
  in order so that "the setter is called with v" is observable.
* The opaque parts (Doryen console cell contents, Bevy's primary schedule, the
  user systems inside the render schedule, the `State<T>` driver closures) are
  abstracted: console cells are a plain list, the primary pass is a
  `World → World` parameter, render-schedule systems are labelled items that
  are not interpreted, and driver callbacks are identifiers whose invocations
  are logged.
-/

namespace BevyDoryen

/-- Model of the external `doryen_rs::Console`: a sized cell buffer. The
bridge never inspects cells; only `new`, `resize` and `get_size` are used. -/
structure Console where
  width : Nat
  height : Nat
  cells : List Nat
  deriving DecidableEq, Repr

/-- Doryen `Console::new(width, height)`: a fresh blank buffer. -/
def Console.new (w h : Nat) : Console :=
  { width := w, height := h, cells := List.replicate (w * h) 0 }

/-- Doryen `Console::resize(width, height)`: reallocates the buffer. -/
def Console.resize (_c : Console) (w h : Nat) : Console :=
  { width := w, height := h, cells := List.replicate (w * h) 0 }

/-- Doryen `Console::get_size()`. -/
def Console.get_size (c : Console) : Nat × Nat := (c.width, c.height)

/-- The `RootConsole` resource (newtype over `Option<Console>`; its single
field is written `.0` in `lib.rs`). -/
abbrev RootConsole := Option Console

/-- The five stage labels of the render schedule (`RenderStage` in
`render_system.rs`). -/
inductive RenderStage where
  | First
  | PreRender
  | Render
  | PostRender
  | Last
  deriving DecidableEq, Repr

/-- An entry registered in a render-schedule stage: either a single system or
a system set, identified by an uninterpreted label. -/
inductive RItem where
  | system (id : Nat)
  | systemSet (id : Nat)
  deriving DecidableEq, Repr

/-- Model of `bevy_ecs::schedule::Schedule`: an ordered list of labelled
stages, each holding its systems/sets in insertion order. -/
structure Schedule where
  stages : List (RenderStage × List RItem)
  deriving DecidableEq, Repr

/-- `Schedule::default()`: no stages. -/
def Schedule.default : Schedule := { stages := [] }

/-- `Schedule::add_stage(label, stage)`: appends a fresh stage. -/
def Schedule.add_stage (s : Schedule) (l : RenderStage) : Schedule :=
  { stages := s.stages ++ [(l, [])] }

/-- `Schedule::add_stage_after(target, label, stage)`: inserts a fresh stage
right after `target`; Bevy panics when `target` is absent. -/
def Schedule.add_stage_after (s : Schedule) (target l : RenderStage) :
    Option Schedule :=
  let rec go : List (RenderStage × List RItem) →
      Option (List (RenderStage × List RItem))
    | [] => none
    | p :: rest =>
      if p.1 = target then some (p :: (l, []) :: rest)
      else (go rest).map (p :: ·)
  (go s.stages).map ({ stages := · })

/-- `Schedule::add_system_to_stage` / `add_system_set_to_stage`: appends the
item to the named stage's list; Bevy panics when the stage is absent. -/
def Schedule.add_item_to_stage (s : Schedule) (l : RenderStage) (it : RItem) :
    Option Schedule :=
  if s.stages.any (fun p => p.1 = l) then
    some { stages := s.stages.map
            (fun p => if p.1 = l then (p.1, p.2 ++ [it]) else p) }
  else none

/-- The `RenderState` resource: the dirty flag (`.0`) and the registered
state-driver callbacks (`.1`, modelled by identifier since the closures act
on `State<T>` resources outside this model; their invocations are logged). -/
structure RenderState where
  flag : Bool
  drivers : List Nat
  deriving DecidableEq, Repr

/-- `RenderState::state_updated()`: sets the dirty flag. -/
def RenderState.state_updated (rs : RenderState) : RenderState :=
  { rs with flag := true }

/-- `RenderState::default()`: flag set, no drivers. -/
def RenderState.default : RenderState := { flag := true, drivers := [] }

/-- `impl Default for DoryenRenderSystems`: builds the schedule with the five
stages via one `add_stage` and four `add_stage_after` calls; `none` would mean
one of those panicked. -/
def doryenRenderSystemsDefault : Option Schedule :=
  ((((some (Schedule.default.add_stage RenderStage.First)).bind
      (fun s => s.add_stage_after RenderStage.First RenderStage.PreRender)).bind
      (fun s => s.add_stage_after RenderStage.PreRender RenderStage.Render)).bind
      (fun s => s.add_stage_after RenderStage.Render RenderStage.PostRender)).bind
      (fun s => s.add_stage_after RenderStage.PostRender RenderStage.Last)

/-- The `FpsInfo` resource. -/
structure FpsInfo where
  fps : Nat
  average_fps : Nat
  deriving DecidableEq, Repr

/-- The `AppExit` Bevy event (a unit struct). -/
inductive AppExit where
  | mk
  deriving DecidableEq, Repr

/-- The `Resized` event record. -/
structure Resized where
  previous_width : Nat
  previous_height : Nat
  new_width : Nat
  new_height : Nat
  deriving DecidableEq, Repr

/-- Doryen's `UpdateEvent` return value of `Engine::update`. -/
inductive UpdateEvent where
  | Exit
  | Capture (filename : String)
  deriving DecidableEq, Repr

/-- `ResizeMode` from `lib.rs`. The callback receives `&mut RootConsole` and
the `Resized` record; it is modelled as a function on the resource value. -/
inductive ResizeMode where
  | Nothing
  | Automatic
  | Callback (f : RootConsole → Resized → RootConsole)

/-- The Bevy world restricted to the resources the bridge touches. Each field
is `none` when the resource is absent from the world. `input` is the `Input`
resource (its contents live in `input.rs`, outside this model, so it is an
uninterpreted value rebuilt from the snapshot each tick). -/
structure World where
  rootConsole : Option RootConsole
  input : Option Nat
  fpsInfo : Option FpsInfo
  setFontPathEvents : Option (List String)
  resizedEvents : Option (List Resized)
  renderSystems : Option (Option Schedule)
  renderState : Option RenderState
  appExitEvents : Option (List AppExit)

/-- The `DoryenPluginEngine` struct: the Bevy world plus the engine's own
fields. Event readers are cursors (count of events already consumed). -/
structure Engine where
  world : World
  app_exit_event_reader : Nat
  set_font_path_event_reader : Nat
  swap_console : Option Console
  mouse_button_listeners : List Nat
  previous_screen_size : Nat × Nat
  previous_console_size : Nat × Nat
  resize_mode : ResizeMode

/-- The `&mut dyn DoryenApi` handle: the live console, the polled values, and
a log of `set_font_path` calls (in call order). -/
structure Api where
  con : Console
  fpsVal : Nat
  averageFpsVal : Nat
  inputSnapshot : Nat
  screenSize : Nat × Nat
  fontPathCalls : List String
  deriving DecidableEq, Repr

/-- `DoryenPluginEngine::take_root_console_ownership`: swaps the loop's live
console with the parked one in `swap_console` (panics when `swap_console` is
`None`), then moves the swapped-out console into the `RootConsole` resource
(panics when that resource is absent), leaving `swap_console` empty. -/
def take_root_console_ownership (e : Engine) (api : Api) :
    Option (Engine × Api) :=
  match e.swap_console with
  | none => none
  | some parked =>
    match e.world.rootConsole with
    | none => none
    | some _ =>
      some
        ({ e with
            swap_console := none,
            world := { e.world with rootConsole := some (some api.con) } },
         { api with con := parked })

/-- `DoryenPluginEngine::restore_root_console_ownership`: takes the console
out of the `RootConsole` resource (panics when the resource is absent, or —
at the subsequent `as_mut().unwrap()` — when the resource holds `None`), then
swaps it back into the loop, parking the loop's placeholder in
`swap_console`. -/
def restore_root_console_ownership (e : Engine) (api : Api) :
    Option (Engine × Api) :=
  match e.world.rootConsole with
  | none => none
  | some inner =>
    match inner with
    | none => none
    | some held =>
      some
        ({ e with
            swap_console := some api.con,
            world := { e.world with rootConsole := some none } },
         { api with con := held })

/-- One take/restore round trip on the ownership cell. -/
def take_restore_pair (e : Engine) (api : Api) : Option (Engine × Api) :=
  (take_root_console_ownership e api).bind
    (fun p => restore_root_console_ownership p.1 p.2)

/-- `n` successive take/restore round trips. -/
def take_restore_iter : Nat → Engine × Api → Option (Engine × Api)
  | 0, p => some p
  | n + 1, p => (take_restore_pair p.1 p.2).bind (take_restore_iter n)

/-- `DoryenPluginEngine::handle_input`: panics when the `Input` resource is
absent, then rebuilds it from the polled snapshot (the rebuild itself lives
in `input.rs`, outside this model; it consumes the listener list and the
snapshot and overwrites the resource). -/
def handle_input (e : Engine) (api : Api) : Option Engine :=
  match e.world.input with
  | none => none
  | some _ =>
    some { e with world := { e.world with input := some api.inputSnapshot } }

/-- `Engine::update` for `DoryenPluginEngine`. `primary` models
`self.bevy_app.update()`, Bevy's opaque primary pass over the world. Returns
`none` when the Rust code panics; otherwise the new engine, the new api
handle, and the `Option<UpdateEvent>` the Rust function returns. -/
def update (primary : World → World) (e : Engine) (api : Api) :
    Option (Engine × Api × Option UpdateEvent) :=
  match e.world.fpsInfo with
  | none => none
  | some _ =>
    let e := { e with world := { e.world with
                fpsInfo := some { fps := api.fpsVal,
                                  average_fps := api.averageFpsVal } } }
    (handle_input e api).bind fun e =>
    (take_root_console_ownership e api).bind fun (e, api) =>
    let e := { e with world := primary e.world }
    (restore_root_console_ownership e api).bind fun (e, api) =>
    match e.world.setFontPathEvents with
    | none => none
    | some fontEvents =>
      let pending := fontEvents.drop e.set_font_path_event_reader
      let fpCursor := max e.set_font_path_event_reader fontEvents.length
      let e := { e with set_font_path_event_reader := fpCursor }
      let api :=
        match pending.getLast? with
        | some v => { api with fontPathCalls := api.fontPathCalls ++ [v] }
        | none => api
      match e.world.appExitEvents with
      | none => some (e, api, none)
      | some exitEvents =>
        let pendingExit := exitEvents.drop e.app_exit_event_reader
        let exCursor := max e.app_exit_event_reader exitEvents.length
        let e := { e with app_exit_event_reader := exCursor }
        if pendingExit.isEmpty then some (e, api, none)
        else some (e, api, some UpdateEvent.Exit)

/-- `Engine::render` for `DoryenPluginEngine`. `runSchedule` models
`doryen_render_schedule.run(&mut world)`, i.e. the user systems registered in
the render schedule acting on the world. Returns the new engine and api plus
the list of state-driver callbacks invoked during this pass (in order). -/
def render (runSchedule : Schedule → World → World) (e : Engine) (api : Api) :
    Option (Engine × Api × List Nat) :=
  (take_root_console_ownership e api).bind fun (e, api) =>
  match e.world.renderState with
  | none => none
  | some rs =>
    let invoked := if rs.flag then rs.drivers else []
    let e := { e with world := { e.world with
                renderState := some (if rs.flag then { rs with flag := false }
                                     else rs) } }
    match e.world.renderSystems with
    | none => none
    | some inner =>
      match inner with
      | none => none
      | some sched =>
        let e := { e with world := { e.world with renderSystems := some none } }
        let e := { e with world := runSchedule sched e.world }
        match e.world.renderSystems with
        | none => none
        | some _ =>
          let e := { e with world :=
                      { e.world with renderSystems := some (some sched) } }
          (restore_root_console_ownership e api).bind fun (e, api) =>
          some (e, api, invoked)

/-- `Engine::resize` for `DoryenPluginEngine`: emits a `Resized` event (panics
when the events resource is absent) and applies the configured resize policy.
Rust's `u32` division panics on a zero divisor; `Nat` division returns `0`
there, so a zero ratio in `Automatic` mode covers both the
`previous_console_*` = 0 panics and the zero-ratio panics of the source. -/
def resize (e : Engine) (api : Api) : Option (Engine × Api) :=
  let pw := e.previous_screen_size.1
  let ph := e.previous_screen_size.2
  let nw := api.screenSize.1
  let nh := api.screenSize.2
  match e.world.resizedEvents with
  | none => none
  | some evs =>
    let resized : Resized :=
      { previous_width := pw, previous_height := ph,
        new_width := nw, new_height := nh }
    let e := { e with world :=
                { e.world with resizedEvents := some (evs ++ [resized]) } }
    let afterMode : Option (Engine × Api) :=
      match e.resize_mode with
      | ResizeMode.Nothing => some (e, api)
      | ResizeMode.Automatic =>
        let wRat := pw / e.previous_console_size.1
        let hRat := ph / e.previous_console_size.2
        if wRat = 0 ∨ hRat = 0 then none
        else some (e, { api with con := api.con.resize (nw / wRat) (nh / hRat) })
      | ResizeMode.Callback f =>
        (take_root_console_ownership e api).bind fun (e, api) =>
        match e.world.rootConsole with
        | none => none
        | some inner =>
          let e := { e with world :=
                      { e.world with rootConsole := some (f inner resized) } }
          restore_root_console_ownership e api
    afterMode.bind fun (e, api) =>
      some ({ e with previous_screen_size := (nw, nh),
                     previous_console_size := api.con.get_size }, api)

/-- A registration made through the `RenderSystemExtensions` methods on
`AppBuilder`: `add_doryen_render_system` targets `RenderStage::Render`,
`add_doryen_render_system_to_stage` targets the given stage, and likewise for
the system-set variants. -/
inductive RenderReg where
  | system (id : Nat)
  | systemToStage (l : RenderStage) (id : Nat)
  | systemSet (id : Nat)
  | systemSetToStage (l : RenderStage) (id : Nat)
  deriving DecidableEq, Repr

/-- The stage a registration targets. -/
def RenderReg.target : RenderReg → RenderStage
  | RenderReg.system _ => RenderStage.Render
  | RenderReg.systemToStage l _ => l
  | RenderReg.systemSet _ => RenderStage.Render
  | RenderReg.systemSetToStage l _ => l

/-- The item a registration inserts. -/
def RenderReg.item : RenderReg → RItem
  | RenderReg.system id => RItem.system id
  | RenderReg.systemToStage _ id => RItem.system id
  | RenderReg.systemSet id => RItem.systemSet id
  | RenderReg.systemSetToStage _ id => RItem.systemSet id

/-- Applies one `RenderSystemExtensions` registration to the schedule held in
the `DoryenRenderSystems` resource (each method delegates to
`add_system_to_stage` / `add_system_set_to_stage` on its target stage). -/
def applyReg (s : Schedule) (r : RenderReg) : Option Schedule :=
  s.add_item_to_stage r.target r.item

/-- Applies a sequence of registrations in order (successive
`RenderSystemExtensions` method calls on the builder). -/
def applyRegs (s : Schedule) : List RenderReg → Option Schedule
  | [] => some s
  | r :: regs => (applyReg s r).bind (fun s' => applyRegs s' regs)

/-- The items a registration sequence sends to stage `l`, in order. -/
def regsFor (l : RenderStage) (regs : List RenderReg) : List RItem :=
  regs.filterMap (fun r => if r.target = l then some r.item else none)

/-- The schedule `DoryenRenderSystems::default()` builds: the five stages in
order, each empty. -/
def initialRenderSchedule : Schedule :=
  { stages := [(RenderStage.First, []), (RenderStage.PreRender, []),
               (RenderStage.Render, []), (RenderStage.PostRender, []),
               (RenderStage.Last, [])] }

/-- The `RenderState` half of `add_doryen_render_state::<T>`: pushes the
state-driver callback (identified by `id`) onto the registered list (the
other half registers the `State<T>` driver system set in the Render stage,
modelled by `RenderReg.systemSetToStage`). -/
def add_doryen_render_state_driver (rs : RenderState) (id : Nat) :
    RenderState :=
  { rs with drivers := rs.drivers ++ [id] }

/-- Sample console for concrete witnesses. -/
def sampleConsole : Console := Console.new 80 50

/-- Sample world with every bridge resource present, as plugin initialization
leaves it. -/
def sampleWorld : World :=
  { rootConsole := some none
    input := some 0
    fpsInfo := some { fps := 0, average_fps := 0 }
    setFontPathEvents := some []
    resizedEvents := some []
    renderSystems := some doryenRenderSystemsDefault
    renderState := some RenderState.default
    appExitEvents := some [] }

/-- Sample engine as `doryen_runner` constructs it. -/
def sampleEngine : Engine :=
  { world := sampleWorld
    app_exit_event_reader := 0
    set_font_path_event_reader := 0
    swap_console := some (Console.new 1 1)
    mouse_button_listeners := [0, 1, 2]
    previous_screen_size := (800, 600)
    previous_console_size := (80, 60)
    resize_mode := ResizeMode.Nothing }

/-- Sample api handle. -/
def sampleApi : Api :=
  { con := sampleConsole
    fpsVal := 60
    averageFpsVal := 59
    inputSnapshot := 7
    screenSize := (800, 600)
    fontPathCalls := [] }

/-- Helper: from any state where the parked slot is full and the `RootConsole`
resource is present, one take/restore round trip hands the very same api (and
console) back and only rewrites the resource slot to `some none`. -/
theorem take_restore_pair_spec (e : Engine) (api : Api) (p : Console)
    (r : RootConsole) (hswap : e.swap_console = some p)
    (hroot : e.world.rootConsole = some r) :
    take_restore_pair e api =
      some ({ e with world := { e.world with rootConsole := some none } },
            api) := by
  simp [take_restore_pair, take_root_console_ownership,
        restore_root_console_ownership, hswap, hroot]

/-- Helper: iterated take/restore round trips never abort and return the api
unchanged, preserving the parked console and the resource's presence. -/
theorem take_restore_iter_spec : ∀ (n : Nat) (e : Engine) (api : Api)
    (p : Console) (r : RootConsole), e.swap_console = some p →
    e.world.rootConsole = some r →
    ∃ e' r', take_restore_iter n (e, api) = some (e', api) ∧
      e'.swap_console = some p ∧ e'.world.rootConsole = some r'
  | 0, e, _, _, r, hswap, hroot => ⟨e, r, rfl, hswap, hroot⟩
  | n + 1, e, api, p, r, hswap, hroot => by
    have hpair := take_restore_pair_spec e api p r hswap hroot
    obtain ⟨e', r', hiter, h1, h2⟩ :=
      take_restore_iter_spec n
        { e with world := { e.world with rootConsole := some none } }
        api p none hswap rfl
    exact ⟨e', r', by simp [take_restore_iter, hpair, hiter], h1, h2⟩

/-- C1: starting from a state where the loop holds console `api.con`, the
parked slot is full and the `RootConsole` resource is present, any number `n`
of paired take/restore calls returns `some` (no abort) with the api handle —
in particular its console — exactly the value it held before the sequence. -/
theorem root_console_take_restore_round_trip (n : Nat) (e : Engine)
    (api : Api) (p : Console) (r : RootConsole)
    (hswap : e.swap_console = some p)
    (hroot : e.world.rootConsole = some r) :
    ∃ e', take_restore_iter n (e, api) = some (e', api) := by
  obtain ⟨e', _, h, _, _⟩ := take_restore_iter_spec n e api p r hswap hroot
  exact ⟨e', h⟩

/-- Witness for C1 at a concrete engine, api and `n = 3`. -/
theorem root_console_take_restore_round_trip_witness :
    ∃ e', take_restore_iter 3 (sampleEngine, sampleApi) =
      some (e', sampleApi) :=
  root_console_take_restore_round_trip 3 sampleEngine sampleApi
    (Console.new 1 1) none rfl rfl

/-- C2: from a valid state, a first take succeeds, an immediate second take
aborts (`none`), restore after a take succeeds; restoring while the console is
not held aborts; and the strictly alternating take/restore protocol never
aborts. -/
theorem take_restore_protocol_faults (e : Engine) (api : Api) (p : Console)
    (r : RootConsole) (hswap : e.swap_console = some p)
    (hroot : e.world.rootConsole = some r) :
    (∃ e₁ api₁,
        take_root_console_ownership e api = some (e₁, api₁) ∧
        take_root_console_ownership e₁ api₁ = none ∧
        ∃ e₂ api₂,
          restore_root_console_ownership e₁ api₁ = some (e₂, api₂)) ∧
    (∀ (e' : Engine) (api' : Api), e'.world.rootConsole = some none →
        restore_root_console_ownership e' api' = none) ∧
    (∀ n : Nat, (take_restore_iter n (e, api)).isSome) := by
  refine ⟨?_, ?_, ?_⟩
  · refine ⟨{ e with swap_console := none, world := { e.world with rootConsole := some (some api.con) } }, { api with con := p }, ?_, ?_, ?_⟩
    · simp [take_root_console_ownership, hswap, hroot]
    · simp [take_root_console_ownership]
    · refine ⟨{ e with swap_console := some p, world := { e.world with rootConsole := some none } }, api, ?_⟩
      simp [restore_root_console_ownership]
  · intro e' api' h
    simp [restore_root_console_ownership, h]
  · intro n
    obtain ⟨e', _, h, _, _⟩ := take_restore_iter_spec n e api p r hswap hroot
    simp [h]

/-- Witness for C2 at a concrete engine and api. -/
theorem take_restore_protocol_faults_witness :
    (∃ e₁ api₁,
        take_root_console_ownership sampleEngine sampleApi = some (e₁, api₁) ∧
        take_root_console_ownership e₁ api₁ = none ∧
        ∃ e₂ api₂,
          restore_root_console_ownership e₁ api₁ = some (e₂, api₂)) ∧
    (∀ (e' : Engine) (api' : Api), e'.world.rootConsole = some none →
        restore_root_console_ownership e' api' = none) ∧
    (∀ n : Nat, (take_restore_iter n (sampleEngine, sampleApi)).isSome) :=
  take_restore_protocol_faults sampleEngine sampleApi
    (Console.new 1 1) none rfl rfl

/-- Helper: a natural division is nonzero exactly when the divisor is nonzero
and no larger than the dividend. -/
theorem nat_div_ne_zero_iff (a b : Nat) : a / b ≠ 0 ↔ 0 < b ∧ b ≤ a := by
  rcases Nat.eq_zero_or_pos b with h | h
  · subst h
    simp
  · rw [Nat.div_ne_zero_iff (Nat.pos_iff_ne_zero.mp h)]
    simp [h]

/-- C4: with resize policy `Automatic`, previous screen size `(pw, ph)` and
previous console size `(pcw, pch)`, a resize reporting new screen size
`(nw, nh)` resizes the console to exactly
`(nw / (pw / pcw), nh / (ph / pch))`: the ratios are the integer divisions of
previous screen size by previous console size, and the new console size is
the new screen size integer-divided by those ratios. In particular
`(800, 600) → (1600, 600)` with console `(80, 60)` gives `(160, 60)`. -/
theorem automatic_resize_formula (e : Engine) (api : Api)
    (pw ph pcw pch nw nh : Nat) (evs : List Resized)
    (hmode : e.resize_mode = ResizeMode.Automatic)
    (hprev : e.previous_screen_size = (pw, ph))
    (hpcs : e.previous_console_size = (pcw, pch))
    (hss : api.screenSize = (nw, nh))
    (hrez : e.world.resizedEvents = some evs)
    (hw : pw / pcw ≠ 0) (hh : ph / pch ≠ 0) :
    (resize e api).map
        (fun p => (p.2.con.get_size, p.1.previous_screen_size,
                   p.1.previous_console_size)) =
      some ((nw / (pw / pcw), nh / (ph / pch)), (nw, nh),
            (nw / (pw / pcw), nh / (ph / pch))) := by
  simp [resize, hmode, hprev, hpcs, hss, hrez, hw, hh,
        Console.resize, Console.get_size]

/-- Witness for C4 at the spec's concrete instance: screen `(800, 600)` to
`(1600, 600)`, console `(80, 60)`, giving console size `(160, 60)`. -/
theorem automatic_resize_formula_witness :
    ((resize { sampleEngine with resize_mode := ResizeMode.Automatic }
        { sampleApi with screenSize := (1600, 600) }).map
      (fun p => (p.2.con.get_size, p.1.previous_screen_size,
                 p.1.previous_console_size))) =
      some ((160, 60), (1600, 600), (160, 60)) :=
  automatic_resize_formula
    { sampleEngine with resize_mode := ResizeMode.Automatic }
    { sampleApi with screenSize := (1600, 600) }
    800 600 80 60 1600 600 [] rfl rfl rfl rfl rfl
    (by decide) (by decide)

/-- C9: in `Automatic` mode the resize call performs unguarded integer
divisions by the startup ratios; it completes (does not abort) exactly when
both previous console dimensions are nonzero and no larger than the matching
previous screen dimension — otherwise a ratio truncates to zero (or the ratio
division itself divides by zero) and the call aborts. -/
theorem automatic_resize_division_guard (e : Engine) (api : Api)
    (pw ph pcw pch : Nat) (evs : List Resized)
    (hmode : e.resize_mode = ResizeMode.Automatic)
    (hprev : e.previous_screen_size = (pw, ph))
    (hpcs : e.previous_console_size = (pcw, pch))
    (hrez : e.world.resizedEvents = some evs) :
    (resize e api).isSome ↔ (0 < pcw ∧ pcw ≤ pw) ∧ (0 < pch ∧ pch ≤ ph) := by
  rw [← nat_div_ne_zero_iff pw pcw, ← nat_div_ne_zero_iff ph pch]
  by_cases hw : pw / pcw = 0 <;> by_cases hh : ph / pch = 0 <;>
    simp [resize, hmode, hprev, hpcs, hrez, hw, hh]

/-- Witness for C9 at a concrete failing input: previous screen `(50, 600)`
smaller than previous console `(100, 60)` in width, so the width ratio
truncates to zero and the call aborts. -/
theorem automatic_resize_division_guard_witness :
    (resize
        { sampleEngine with resize_mode := ResizeMode.Automatic,
                            previous_screen_size := (50, 600),
                            previous_console_size := (100, 60) }
        sampleApi).isSome ↔ (0 < 100 ∧ 100 ≤ 50) ∧ (0 < 60 ∧ 60 ≤ 600) :=
  automatic_resize_division_guard
    { sampleEngine with resize_mode := ResizeMode.Automatic,
                        previous_screen_size := (50, 600),
                        previous_console_size := (100, 60) }
    sampleApi 50 600 100 60 [] rfl rfl rfl rfl

/-- Helper: applying any registration sequence to a schedule that already has
exactly the five render stages (in order) succeeds and appends each
registration's item to its target stage, in order. -/
theorem applyRegs_five_stages (regs : List RenderReg)
    (a b c d f : List RItem) :
    applyRegs
        { stages := [(RenderStage.First, a), (RenderStage.PreRender, b),
                     (RenderStage.Render, c), (RenderStage.PostRender, d),
                     (RenderStage.Last, f)] } regs =
      some { stages :=
        [(RenderStage.First, a ++ regsFor RenderStage.First regs),
         (RenderStage.PreRender, b ++ regsFor RenderStage.PreRender regs),
         (RenderStage.Render, c ++ regsFor RenderStage.Render regs),
         (RenderStage.PostRender, d ++ regsFor RenderStage.PostRender regs),
         (RenderStage.Last, f ++ regsFor RenderStage.Last regs)] } := by
  induction regs generalizing a b c d f with
  | nil => simp [applyRegs, regsFor]
  | cons r regs ih =>
    have htarget : ∀ l, regsFor l (r :: regs) =
        (if r.target = l then [r.item] else []) ++ regsFor l regs := by
      intro l
      by_cases h : r.target = l <;> simp [regsFor, List.filterMap_cons, h]
    rcases hr : r.target with _ | _ | _ | _ | _ <;>
      simp [applyRegs, applyReg, Schedule.add_item_to_stage, hr, htarget, ih,
            List.append_assoc]

/-- C5: starting from `DoryenRenderSystems::default()`, every sequence of
render-system / render-system-set registrations succeeds and leaves the
schedule's stages in the fixed order First, PreRender, Render, PostRender,
Last — regardless of the order of registrations across stages — with each
stage holding exactly the items registered to it, in insertion order. -/
theorem render_schedule_stage_and_insertion_order (regs : List RenderReg) :
    (doryenRenderSystemsDefault.bind (fun s0 => applyRegs s0 regs)).map
        Schedule.stages =
      some [(RenderStage.First, regsFor RenderStage.First regs),
            (RenderStage.PreRender, regsFor RenderStage.PreRender regs),
            (RenderStage.Render, regsFor RenderStage.Render regs),
            (RenderStage.PostRender, regsFor RenderStage.PostRender regs),
            (RenderStage.Last, regsFor RenderStage.Last regs)] := by
  have hdef : doryenRenderSystemsDefault =
      some { stages := [(RenderStage.First, []), (RenderStage.PreRender, []),
                        (RenderStage.Render, []), (RenderStage.PostRender, []),
                        (RenderStage.Last, [])] } := rfl
  rw [hdef]
  simp [applyRegs_five_stages regs [] [] [] [] []]

/-- C3: with the dirty flag set via `state_updated`, one render pass invokes
every registered state-driver callback exactly once (the invocation log is
exactly the registered list, in order) and leaves the flag false; a second
render without re-setting the flag invokes zero callbacks. `runSchedule` is
the opaque user render schedule, assumed not to touch the bridge's own
`RenderState`, `DoryenRenderSystems` and `RootConsole` resources. -/
theorem render_state_driver_invocation
    (runSchedule : Schedule → World → World) (e : Engine) (api : Api)
    (p : Console) (r : RootConsole) (rs : RenderState) (sched : Schedule)
    (hswap : e.swap_console = some p)
    (hroot : e.world.rootConsole = some r)
    (hrs : e.world.renderState = some (RenderState.state_updated rs))
    (hsys : e.world.renderSystems = some (some sched))
    (hrun1 : ∀ sch w, (runSchedule sch w).renderState = w.renderState)
    (hrun2 : ∀ sch w, (runSchedule sch w).renderSystems = w.renderSystems)
    (hrun3 : ∀ sch w, (runSchedule sch w).rootConsole = w.rootConsole) :
    ((render runSchedule e api).bind fun t =>
        (render runSchedule t.1 t.2.1).map fun t2 =>
          (t.2.2, t.1.world.renderState, t2.2.2)) =
      some (rs.drivers, some { flag := false, drivers := rs.drivers }, []) := by
  simp [render, take_root_console_ownership, restore_root_console_ownership,
        RenderState.state_updated, hswap, hroot, hrs, hsys, hrun1, hrun2,
        hrun3]

/-- Witness for C3 at a concrete engine with three registered drivers and an
identity render schedule. -/
theorem render_state_driver_invocation_witness :
    ((render (fun _ w => w)
        { sampleEngine with world := { sampleWorld with
            renderState := some { flag := true, drivers := [1, 2, 3] } } }
        sampleApi).bind fun t =>
        (render (fun _ w => w) t.1 t.2.1).map fun t2 =>
          (t.2.2, t.1.world.renderState, t2.2.2)) =
      some ([1, 2, 3], some { flag := false, drivers := [1, 2, 3] }, []) :=
  render_state_driver_invocation (fun _ w => w)
    { sampleEngine with world := { sampleWorld with
        renderState := some { flag := true, drivers := [1, 2, 3] } } }
    sampleApi (Console.new 1 1) none { flag := false, drivers := [1, 2, 3] }
    initialRenderSchedule rfl rfl rfl rfl
    (fun _ _ => rfl) (fun _ _ => rfl) (fun _ _ => rfl)

/-- Helper: registering drivers one by one appends them in order and leaves
the flag untouched. -/
theorem foldl_add_driver_spec : ∀ (ids : List Nat) (rs : RenderState),
    ids.foldl add_doryen_render_state_driver rs =
      { flag := rs.flag, drivers := rs.drivers ++ ids }
  | [], rs => by simp
  | id :: ids, rs => by
    rw [List.foldl_cons, foldl_add_driver_spec ids]
    simp [add_doryen_render_state_driver]

/-- C8: `RenderState::default()` initializes the dirty flag to `true`, so the
very first render pass — with drivers registered via
`add_doryen_render_state` but `state_updated` never called — invokes every
registered driver callback once and only then clears the flag. -/
theorem render_state_default_flag_first_pass
    (runSchedule : Schedule → World → World) (e : Engine) (api : Api)
    (p : Console) (r : RootConsole) (sched : Schedule) (ids : List Nat)
    (hswap : e.swap_console = some p)
    (hroot : e.world.rootConsole = some r)
    (hrs : e.world.renderState =
      some (ids.foldl add_doryen_render_state_driver RenderState.default))
    (hsys : e.world.renderSystems = some (some sched))
    (hrun1 : ∀ sch w, (runSchedule sch w).renderState = w.renderState)
    (hrun2 : ∀ sch w, (runSchedule sch w).renderSystems = w.renderSystems)
    (hrun3 : ∀ sch w, (runSchedule sch w).rootConsole = w.rootConsole) :
    RenderState.default.flag = true ∧
    ((render runSchedule e api).map fun t =>
        (t.2.2, t.1.world.renderState)) =
      some (ids, some { flag := false, drivers := ids }) := by
  rw [foldl_add_driver_spec ids RenderState.default] at hrs
  refine ⟨rfl, ?_⟩
  simp only [RenderState.default] at hrs
  simp [render, take_root_console_ownership, restore_root_console_ownership,
        hswap, hroot, hrs, hsys, hrun1, hrun2, hrun3]

/-- Witness for C8 with two registered drivers and an identity schedule. -/
theorem render_state_default_flag_first_pass_witness :
    RenderState.default.flag = true ∧
    ((render (fun _ w => w)
        { sampleEngine with world := { sampleWorld with
            renderState := some ([5, 6].foldl add_doryen_render_state_driver
              RenderState.default) } }
        sampleApi).map fun t => (t.2.2, t.1.world.renderState)) =
      some ([5, 6], some { flag := false, drivers := [5, 6] }) :=
  render_state_default_flag_first_pass (fun _ w => w)
    { sampleEngine with world := { sampleWorld with
        renderState := some ([5, 6].foldl add_doryen_render_state_driver
          RenderState.default) } }
    sampleApi (Console.new 1 1) none initialRenderSchedule [5, 6]
    rfl rfl rfl rfl (fun _ _ => rfl) (fun _ _ => rfl) (fun _ _ => rfl)

/-- C6: if during one update tick the primary pass queues the font-path
events `newEvs` (on top of the already-consumed `evs`), the update callback
calls the loop's font-path setter with exactly the most recently queued value
and discards the older ones — and does not call the setter at all when
nothing was queued this tick (`newEvs = []`). -/
theorem update_font_path_last_write_wins (e : Engine) (api : Api)
    (p : Console) (r : RootConsole) (fv : FpsInfo) (iv : Nat)
    (evs newEvs : List String)
    (hfps : e.world.fpsInfo = some fv) (hin : e.world.input = some iv)
    (hswap : e.swap_console = some p) (hroot : e.world.rootConsole = some r)
    (hfp : e.world.setFontPathEvents = some evs)
    (hreader : e.set_font_path_event_reader = evs.length) :
    ((update (fun w => { w with setFontPathEvents := some (evs ++ newEvs) })
        e api).map fun t => t.2.1.fontPathCalls) =
      some (api.fontPathCalls ++ newEvs.getLast?.toList) := by
  rcases hexit : e.world.appExitEvents with _ | exs <;>
  rcases hl : newEvs.getLast? with _ | v <;>
    simp [update, handle_input, take_root_console_ownership,
          restore_root_console_ownership, hfps, hin, hswap, hroot, hfp,
          hreader, hexit, List.drop_left, hl] <;>
    (split <;> exact ⟨_, _, ⟨_, rfl⟩, rfl⟩)

/-- Witness for C6: two font-path events queued in one tick; only the second
is applied. -/
theorem update_font_path_last_write_wins_witness :
    ((update
        (fun w => { w with setFontPathEvents := some ([] ++ ["a.png", "b.png"]) })
        sampleEngine sampleApi).map fun t => t.2.1.fontPathCalls) =
      some (sampleApi.fontPathCalls ++ ["a.png", "b.png"].getLast?.toList) :=
  update_font_path_last_write_wins sampleEngine sampleApi (Console.new 1 1)
    none { fps := 0, average_fps := 0 } 0 [] ["a.png", "b.png"]
    rfl rfl rfl rfl rfl rfl

/-- C7: if the primary pass queues `newExits` exit events this tick (on top
of the already-consumed `exs`), update returns the single stop value
`Some(UpdateEvent::Exit)` exactly when at least one exit event is pending,
and `None` ("continue") when none is. -/
theorem update_exit_signal (e : Engine) (api : Api)
    (p : Console) (r : RootConsole) (fv : FpsInfo) (iv : Nat)
    (evs : List String) (exs newExits : List AppExit)
    (hfps : e.world.fpsInfo = some fv) (hin : e.world.input = some iv)
    (hswap : e.swap_console = some p) (hroot : e.world.rootConsole = some r)
    (hfp : e.world.setFontPathEvents = some evs)
    (hexit : e.world.appExitEvents = some exs)
    (hreader : e.app_exit_event_reader = exs.length) :
    ((update (fun w => { w with appExitEvents := some (exs ++ newExits) })
        e api).map fun t => t.2.2) =
      some (if newExits.isEmpty then none else some UpdateEvent.Exit) := by
  rcases newExits with _ | ⟨x, xs⟩ <;>
  rcases hl : (evs.drop e.set_font_path_event_reader).getLast? with _ | v <;>
    simp [update, handle_input, take_root_console_ownership,
          restore_root_console_ownership, hfps, hin, hswap, hroot, hfp,
          hexit, hreader, List.drop_left, hl]

/-- Witness for C7: two exit events queued in one tick; update returns the
single stop value. -/
theorem update_exit_signal_witness :
    ((update
        (fun w => { w with appExitEvents := some ([] ++ [AppExit.mk, AppExit.mk]) })
        sampleEngine sampleApi).map fun t => t.2.2) =
      some (if [AppExit.mk, AppExit.mk].isEmpty then none
            else some UpdateEvent.Exit) :=
  update_exit_signal sampleEngine sampleApi (Console.new 1 1) none
    { fps := 0, average_fps := 0 } 0 [] [] [AppExit.mk, AppExit.mk]
    rfl rfl rfl rfl rfl rfl rfl

/-- C10: absence of the `Events<AppExit>` resource is tolerated — update
completes and returns "continue" — whereas absence of the FPS, input,
root-console or font-path-events resources makes update abort, and absence
of the render-schedule resource makes render abort. -/
theorem update_exit_resource_optional (e : Engine) (api : Api)
    (p : Console) (r : RootConsole) (fv : FpsInfo) (iv : Nat)
    (evs : List String)
    (hfps : e.world.fpsInfo = some fv) (hin : e.world.input = some iv)
    (hswap : e.swap_console = some p) (hroot : e.world.rootConsole = some r)
    (hfp : e.world.setFontPathEvents = some evs)
    (hexit : e.world.appExitEvents = none) :
    ((update (fun w => w) e api).map fun t => t.2.2) = some none ∧
    (∀ (e' : Engine) (api' : Api) (primary : World → World),
        e'.world.fpsInfo = none → update primary e' api' = none) ∧
    (∀ (e' : Engine) (api' : Api) (primary : World → World) (fv' : FpsInfo),
        e'.world.fpsInfo = some fv' → e'.world.input = none →
        update primary e' api' = none) ∧
    (∀ (e' : Engine) (api' : Api) (primary : World → World) (fv' : FpsInfo)
        (iv' : Nat) (p' : Console),
        e'.world.fpsInfo = some fv' → e'.world.input = some iv' →
        e'.swap_console = some p' → e'.world.rootConsole = none →
        update primary e' api' = none) ∧
    (∀ (e' : Engine) (api' : Api) (fv' : FpsInfo) (iv' : Nat) (p' : Console)
        (r' : RootConsole),
        e'.world.fpsInfo = some fv' → e'.world.input = some iv' →
        e'.swap_console = some p' → e'.world.rootConsole = some r' →
        e'.world.setFontPathEvents = none →
        update (fun w => w) e' api' = none) ∧
    (∀ (runSchedule : Schedule → World → World) (e' : Engine) (api' : Api)
        (p' : Console) (r' : RootConsole) (rs' : RenderState),
        e'.swap_console = some p' → e'.world.rootConsole = some r' →
        e'.world.renderState = some rs' → e'.world.renderSystems = none →
        render runSchedule e' api' = none) := by
  refine ⟨?_, ?_, ?_, ?_, ?_, ?_⟩
  · rcases hl : (evs.drop e.set_font_path_event_reader).getLast? with _ | v <;>
      simp [update, handle_input, take_root_console_ownership,
            restore_root_console_ownership, hfps, hin, hswap, hroot, hfp,
            hexit, hl]
  · intro e' api' primary h
    simp [update, h]
  · intro e' api' primary fv' h1 h2
    simp [update, handle_input, h1, h2]
  · intro e' api' primary fv' iv' p' h1 h2 h3 h4
    simp [update, handle_input, take_root_console_ownership, h1, h2, h3, h4]
  · intro e' api' fv' iv' p' r' h1 h2 h3 h4 h5
    simp [update, handle_input, take_root_console_ownership,
          restore_root_console_ownership, h1, h2, h3, h4, h5]
  · intro runSchedule e' api' p' r' rs' h1 h2 h3 h4
    simp [render, take_root_console_ownership, h1, h2, h3, h4]

/-- Witness for C10 at a concrete engine whose world lacks the `AppExit`
events resource. -/
theorem update_exit_resource_optional_witness :
    ((update (fun w => w)
        { sampleEngine with world := { sampleWorld with appExitEvents := none } }
        sampleApi).map fun t => t.2.2) = some none ∧
    (∀ (e' : Engine) (api' : Api) (primary : World → World),
        e'.world.fpsInfo = none → update primary e' api' = none) ∧
    (∀ (e' : Engine) (api' : Api) (primary : World → World) (fv' : FpsInfo),
        e'.world.fpsInfo = some fv' → e'.world.input = none →
        update primary e' api' = none) ∧
    (∀ (e' : Engine) (api' : Api) (primary : World → World) (fv' : FpsInfo)
        (iv' : Nat) (p' : Console),
        e'.world.fpsInfo = some fv' → e'.world.input = some iv' →
        e'.swap_console = some p' → e'.world.rootConsole = none →
        update primary e' api' = none) ∧
    (∀ (e' : Engine) (api' : Api) (fv' : FpsInfo) (iv' : Nat) (p' : Console)
        (r' : RootConsole),
        e'.world.fpsInfo = some fv' → e'.world.input = some iv' →
        e'.swap_console = some p' → e'.world.rootConsole = some r' →
        e'.world.setFontPathEvents = none →
        update (fun w => w) e' api' = none) ∧
    (∀ (runSchedule : Schedule → World → World) (e' : Engine) (api' : Api)
        (p' : Console) (r' : RootConsole) (rs' : RenderState),
        e'.swap_console = some p' → e'.world.rootConsole = some r' →
        e'.world.renderState = some rs' → e'.world.renderSystems = none →
        render runSchedule e' api' = none) :=
  update_exit_resource_optional
    { sampleEngine with world := { sampleWorld with appExitEvents := none } }
    sampleApi (Console.new 1 1) none { fps := 0, average_fps := 0 } 0 []
    rfl rfl rfl rfl rfl rfl

end BevyDoryen
